import Mathlib

/-!
Verification of the air-quality computation core of air-quality-dash/app.py.

Concentrations and index values are embedded as rationals (the decimal
literals of the source are exact in ℚ); the floating "not-a-number"
missing-value sentinel of the source (np.nan / pd.isna) is embedded as
Option: none stands for NaN/undefined, some v for a defined value.
-/

namespace AirQuality

/-- One row (BPlo, BPhi, Ilo, Ihi) of a pollutant's breakpoint table. -/
structure Breakpoint where
  lo : ℚ
  hi : ℚ
  ilo : ℚ
  ihi : ℚ
deriving DecidableEq, Repr

/-- AQI_TABLE["pm25"] from app.py. -/
def pm25Table : List Breakpoint :=
  [⟨0, 12, 0, 50⟩,
   ⟨12.1, 35.4, 51, 100⟩,
   ⟨35.5, 55.4, 101, 150⟩,
   ⟨55.5, 150.4, 151, 200⟩,
   ⟨150.5, 250.4, 201, 300⟩,
   ⟨250.5, 350.4, 301, 400⟩,
   ⟨350.5, 500.4, 401, 500⟩]

/-- AQI_TABLE["o3"] from app.py. -/
def o3Table : List Breakpoint :=
  [⟨0, 54, 0, 50⟩,
   ⟨55, 70, 51, 100⟩,
   ⟨71, 85, 101, 150⟩,
   ⟨86, 105, 151, 200⟩,
   ⟨106, 200, 201, 300⟩]

/-- AQI_TABLE, a dict keyed by pollutant code; none for a key absent
from the dict (an unknown pollutant). -/
def AQI_TABLE : String → Option (List Breakpoint)
  | "pm25" => some pm25Table
  | "o3" => some o3Table
  | _ => none

/-- The guard `BPlo <= value <= BPhi` of the scan in compute_aqi_for_value. -/
def inBp (v : ℚ) (bp : Breakpoint) : Bool :=
  decide (bp.lo ≤ v ∧ v ≤ bp.hi)

/-- The linear interpolation `(Ihi - Ilo) / (BPhi - BPlo) * (value - BPlo) + Ilo`. -/
def interp (bp : Breakpoint) (v : ℚ) : ℚ :=
  (bp.ihi - bp.ilo) / (bp.hi - bp.lo) * (v - bp.lo) + bp.ilo

/-- compute_aqi_for_value from app.py: NaN in, NaN out; otherwise scan
`AQI_TABLE.get(pollutant, [])` in order for the first breakpoint containing
the value and interpolate; failing that, return 500.0 when the table is
non-empty and the value exceeds the last breakpoint's BPhi; otherwise NaN. -/
def compute_aqi_for_value (pollutant : String) (value : Option ℚ) : Option ℚ :=
  match value with
  | none => none
  | some v =>
    let table := (AQI_TABLE pollutant).getD []
    match table.find? (inBp v) with
    | some bp => some (interp bp v)
    | none =>
      match table.getLast? with
      | some lastBp => if lastBp.hi < v then some 500 else none
      | none => none

/-- AQI_CATEGORY from app.py: ordered (lo, hi, name) severity bands. -/
def AQI_CATEGORY : List (ℚ × ℚ × String) :=
  [(0, 50, "Good"),
   (51, 100, "Moderate"),
   (101, 150, "Unhealthy for Sensitive Groups"),
   (151, 200, "Unhealthy"),
   (201, 300, "Very Unhealthy"),
   (301, 500, "Hazardous")]

/-- aqi_category from app.py: the name of the first band with
`lo <= aqi <= hi`, and the placeholder dash for NaN or no matching band. -/
def aqi_category (aqi : Option ℚ) : String :=
  match aqi with
  | none => "—"
  | some v =>
    match AQI_CATEGORY.find? (fun b => decide (b.1 ≤ v ∧ v ≤ b.2.1)) with
    | some b => b.2.2
    | none => "—"

/-! ### KPI computations of update_all (app.py lines 345-356) -/

/-- Mean of a list of rationals; none when the list is empty (a pandas
mean over an all-missing group is NaN). -/
def meanQ (xs : List ℚ) : Option ℚ :=
  if xs.isEmpty then none else some (xs.sum / xs.length)

/-- The avg-AQI KPI: np.nanmean over the aqi_max column guarded by
notna().any() — the mean of the defined values, NaN when there are none. -/
def nanmean (buckets : List (Option ℚ)) : Option ℚ :=
  meanQ (buckets.filterMap id)

/-- The effective threshold `(thresh or 100)`: Python replaces a falsy
slider value (None or 0) with 100. -/
def effThreshold (thresh : Option ℚ) : ℚ :=
  match thresh with
  | none => 100
  | some t => if t = 0 then 100 else t

/-- Whether one aqi_max cell satisfies `cell >= thresh`; a NaN cell
compares False, as in pandas. -/
def exceedsCell (t : ℚ) (b : Option ℚ) : Bool :=
  match b with
  | some v => decide (t ≤ v)
  | none => false

/-- The exceedance KPI `(aqi_df["aqi_max"] >= (thresh or 100)).mean() * 100`
guarded by notna().any(): the boolean mean divides the count of True rows by
the total row count (NaN rows compare False and stay in the denominator),
and the result is a percentage; NaN when no row is defined. -/
def exceed_rate (buckets : List (Option ℚ)) (thresh : Option ℚ) : Option ℚ :=
  if buckets.any Option.isSome then
    some (((buckets.countP (exceedsCell (effThreshold thresh)) : ℚ)
      / (buckets.length : ℚ)) * 100)
  else none

/-- Series.idxmax with the surrounding notna().any() guard, keyed by an
arbitrary index type: the index and value of the first entry attaining the
maximum defined value, NaN entries skipped; none when every entry is NaN.
Used both for the worst-period KPI (index = bucket timestamp) and the
top-driver KPI (index = pollutant code). -/
def idxmaxFirst {α : Type} : List (α × Option ℚ) → Option (α × ℚ)
  | [] => none
  | (_, none) :: rest => idxmaxFirst rest
  | (t, some v) :: rest =>
    match idxmaxFirst rest with
    | none => some (t, v)
    | some (t2, v2) => if v < v2 then some (t2, v2) else some (t, v)

/-! ### Category distribution of update_all (app.py lines 426-432) -/

/-- pie_bins from app.py. -/
def pie_bins : List ℚ := [0, 50, 100, 150, 200, 300, 500]

/-- pie_labels from app.py. -/
def pie_labels : List String :=
  ["Good (0–50)", "Moderate (51–100)", "Unhealthy SG (101–150)",
   "Unhealthy (151–200)", "Very Unhealthy (201–300)", "Hazardous (301–500)"]

/-- Interval matching of pd.cut after the lowest edge has been passed:
assign x to the first right-closed interval (lo, hi] among the remaining
bin edges (x is already known to exceed the previous edge). -/
def pdCutGo (x : ℚ) : List ℚ → List String → Option String
  | hi :: bins, lab :: labs => if x ≤ hi then some lab else pdCutGo x bins labs
  | _, _ => none

/-- pd.cut(x, bins, labels, right=True, include_lowest=True) for a single
defined value: the first interval is closed on both ends, later intervals
are (lo, hi]; a value outside all intervals gets no category. -/
def pdCut (bins : List ℚ) (labels : List String) (x : ℚ) : Option String :=
  match bins with
  | [] => none
  | b0 :: rest => if x < b0 then none else pdCutGo x rest labels

/-- The pie distribution: pd.cut of each defined aqi_max cell into
pie_bins (NaN cells get no category and are dropped by value_counts),
then reindex(pie_labels, fill_value=0): one count per label, in the
canonical label order, zero when absent. -/
def categoryCounts (buckets : List (Option ℚ)) : List (String × ℕ) :=
  pie_labels.map fun lab =>
    (lab, buckets.countP fun b =>
      match b with
      | some v => pdCut pie_bins pie_labels v == some lab
      | none => false)

/-! ### Filtering, pivoting and resampling of update_all (app.py lines 284-343) -/

/-- One row of the readings table: datetime_local (none = NaT), city,
station, pollutant code, value (none = NaN). Instants are embedded as
integers (seconds on the epoch axis). -/
structure Reading where
  timestamp : Option Int
  city : String
  station : String
  pollutant : String
  value : Option ℚ
deriving DecidableEq, Repr

/-- pd.Timedelta(days=1) on the integer second axis. -/
def oneDay : Int := 86400

/-- The stations of stations_by_city for one city. -/
def stationsOf (readings : List Reading) (city : String) : List String :=
  (readings.filter fun r => r.city == city).map Reading.station

/-- The station guard of update_all: a supplied station that does not
belong to the selected city is treated as no station filter. -/
def effectiveStation (readings : List Reading) (city station : Option String) :
    Option String :=
  match city, station with
  | some c, some s => if s ∈ stationsOf readings c then some s else none
  | _, s => s

/-- One reading passes the city, station, inclusive date-range
(timestamp ≥ start-of-start-day and < start-of-end-day + one day) and
pollutant-membership filters of update_all; comparisons against a NaT
timestamp are False, as in pandas, and an empty pollutant selection
applies no pollutant filter. -/
def passesFilters (r : Reading) (city station : Option String)
    (sd ed : Option Int) (pollutants : List String) : Bool :=
  (match city with | none => true | some c => r.city == c) &&
  (match station with | none => true | some s => r.station == s) &&
  (match sd with
   | none => true
   | some d => match r.timestamp with
     | some t => decide (d ≤ t)
     | none => false) &&
  (match ed with
   | none => true
   | some d => match r.timestamp with
     | some t => decide (t < d + oneDay)
     | none => false) &&
  (pollutants.isEmpty || pollutants.contains r.pollutant)

/-- The filtered frame dff of update_all (station guard applied first). -/
def filterReadings (readings : List Reading) (city station : Option String)
    (sd ed : Option Int) (pollutants : List String) : List Reading :=
  let st := effectiveStation readings city station
  readings.filter (passesFilters · city st sd ed pollutants)

/-- dropna(subset=["datetime_local", "value"]) restricted to one pollutant:
the (timestamp, concentration) pairs feeding that pivot column. -/
def rowsFor (readings : List Reading) (p : String) : List (Int × ℚ) :=
  readings.filterMap fun r =>
    match r.timestamp, r.value with
    | some t, some v => if r.pollutant == p then some (t, v) else none
    | _, _ => none

/-- One pivot_table cell: the mean concentration of the pollutant at one
exact timestamp (aggfunc="mean"); none when the pollutant has no reading
at that timestamp. -/
def pivotValue (rows : List (Int × ℚ)) (t : Int) : Option ℚ :=
  meanQ ((rows.filter fun r => r.1 == t).map Prod.snd)

/-- Left-aligned fixed-width resampling: the start of the width-w bucket
containing instant t (floor alignment, as in resample("H"/"D"/"W")). -/
def bucketStart (w t : Int) : Int := w * (t.fdiv w)

/-- The distinct pivot-index timestamps that fall in the bucket starting
at b. -/
def bucketTimes (rows : List (Int × ℚ)) (w b : Int) : List Int :=
  ((rows.map Prod.fst).dedup).filter fun t => bucketStart w t == b

/-- resample(...).mean() for one pollutant at bucket b: the mean of that
column's pivot cells over the timestamps in the bucket, skipping missing
cells; none (NaN) when the bucket has no contributing reading for the
pollutant. -/
def bucketValue (rows : List (Int × ℚ)) (w b : Int) : Option ℚ :=
  meanQ ((bucketTimes rows w b).filterMap (pivotValue rows))

/-- The bucket-start axis of the resampled frame: every width-w bucket
from the one containing the earliest surviving timestamp to the one
containing the latest, in chronological order. -/
def bucketAxis (ts : List Int) (w : Int) : List Int :=
  match ts.min?, ts.max? with
  | some tmin, some tmax =>
    let b0 := bucketStart w tmin
    let n := ((bucketStart w tmax - b0).fdiv w).toNat + 1
    (List.range n).map fun i => b0 + w * (i : Int)
  | _, _ => []

/-- DataFrame.max(axis=1): the maximum of the defined per-pollutant
indices of one bucket row; NaN when all are NaN. This is the aqi_max
overall-index reduction. -/
def maxDefined (xs : List (Option ℚ)) : Option ℚ :=
  xs.foldl (fun acc x =>
    match acc, x with
    | none, y => y
    | some m, none => some m
    | some m, some v => some (max m v)) none

/-- The surviving distinct timestamps of the pivot index (dropna on
datetime_local and value, restricted to the requested pollutants that
actually occur — exactly the rows that feed some aqi column). -/
def pivotIndex (dff : List Reading) : List Int :=
  (dff.filterMap fun r =>
    match r.timestamp, r.value with
    | some t, some _ => some t
    | _, _ => none).dedup

/-- The mean_by_pollutant entry for one pollutant: the column mean of its
aqi series over the bucket axis, NaN cells skipped. -/
def meanForPollutant (dff : List Reading) (w : Int) (axis : List Int)
    (p : String) : Option ℚ :=
  nanmean (axis.map fun b => compute_aqi_for_value p (bucketValue (rowsFor dff p) w b))

/-- The computational core of update_all's outputs. -/
structure SummaryOutput where
  buckets : List (Int × Option ℚ)
  avg : Option ℚ
  exceedPct : Option ℚ
  worst : Option (Int × ℚ)
  topDriver : Option String
  counts : List (String × ℕ)
deriving Repr

/-- update_all from app.py, restricted to its computational core (the
resampling granularities "H"/"D"/"W" are embedded as a bucket width w):
apply the filters; when the filtered frame is empty return the explicit
no-data signal (none); otherwise drop rows with missing timestamp or
value, pivot, resample, build one aqi column per requested pollutant
present in the pivot (returning the no-data signal again when there is no
such column), reduce each bucket row to aqi_max, and produce the KPI and
distribution outputs. -/
def update_all (readings : List Reading) (city station : Option String)
    (sd ed : Option Int) (pollutants : List String) (w : Int)
    (thresh : Option ℚ) : Option SummaryOutput :=
  let dff := filterReadings readings city station sd ed pollutants
  if dff.isEmpty then none
  else
    let present := pollutants.filter fun p => !(rowsFor dff p).isEmpty
    if present.isEmpty then none
    else
      let axis := bucketAxis (pivotIndex dff) w
      let aqiMax := axis.map fun b =>
        (b, maxDefined (present.map fun p =>
          compute_aqi_for_value p (bucketValue (rowsFor dff p) w b)))
      let col := aqiMax.map Prod.snd
      some
        { buckets := aqiMax
          avg := nanmean col
          exceedPct := exceed_rate col thresh
          worst := idxmaxFirst aqiMax
          topDriver := (idxmaxFirst (present.map fun p =>
            (p, meanForPollutant dff w axis p))).map Prod.fst
          counts := categoryCounts col }

/-! ### Helper lemmas -/

lemma AQI_TABLE_cases {p : String} {tbl : List Breakpoint}
    (h : AQI_TABLE p = some tbl) :
    (p = "pm25" ∧ tbl = pm25Table) ∨ (p = "o3" ∧ tbl = o3Table) := by
  unfold AQI_TABLE at h
  split at h <;> simp_all

lemma find?_of_first {α : Type} (p : α → Bool) (l : List α) :
    ∀ (i : ℕ) (hi : i < l.length),
      p (l.get ⟨i, hi⟩) = true →
      (∀ (j : ℕ) (hj : j < l.length), j < i → p (l.get ⟨j, hj⟩) = false) →
      l.find? p = some (l.get ⟨i, hi⟩) := by
  induction l with
  | nil => intro i hi _ _; simp at hi
  | cons a l ih =>
    intro i hi hp hmin
    cases i with
    | zero =>
      simp only [List.get] at hp ⊢
      exact List.find?_cons_of_pos _ hp
    | succ i =>
      have ha : p a = false := hmin 0 (by simp) (Nat.succ_pos i)
      rw [List.find?_cons_of_neg _ (by simp [ha])]
      simp only [List.get] at hp ⊢
      exact ih i (by simpa using hi) hp
        (fun j hj hji => hmin (j + 1) (by simpa using Nat.succ_lt_succ hj)
          (Nat.succ_lt_succ hji))

lemma find_none_of_all {α : Type} {p : α → Bool} {l : List α}
    (h : ∀ a ∈ l, p a = false) : l.find? p = none :=
  List.find?_eq_none.mpr (fun a ha => by simp [h a ha])

lemma pm25_find_none_of_gt {v : ℚ} (hv : (500.4 : ℚ) < v) :
    pm25Table.find? (inBp v) = none := by
  apply find_none_of_all
  intro bp hbp
  fin_cases hbp <;>
    · simp only [inBp, decide_eq_false_iff_not]
      rintro ⟨h1, h2⟩
      norm_num at h2 hv
      linarith

lemma pm25_find_none_of_lt {v : ℚ} (hv : v < 0) :
    pm25Table.find? (inBp v) = none := by
  apply find_none_of_all
  intro bp hbp
  fin_cases hbp <;>
    · simp only [inBp, decide_eq_false_iff_not]
      rintro ⟨h1, h2⟩
      norm_num at h1
      linarith

lemma o3_find_none_of_gt {v : ℚ} (hv : (200 : ℚ) < v) :
    o3Table.find? (inBp v) = none := by
  apply find_none_of_all
  intro bp hbp
  fin_cases hbp <;>
    · simp only [inBp, decide_eq_false_iff_not]
      rintro ⟨h1, h2⟩
      linarith

lemma o3_find_none_of_lt {v : ℚ} (hv : v < 0) :
    o3Table.find? (inBp v) = none := by
  apply find_none_of_all
  intro bp hbp
  fin_cases hbp <;>
    · simp only [inBp, decide_eq_false_iff_not]
      rintro ⟨h1, h2⟩
      linarith

lemma countP_exceeds_eq (t : ℚ) (buckets : List (Option ℚ)) :
    buckets.countP (exceedsCell t) =
      ((buckets.filterMap id).filter fun v => decide (t ≤ v)).length := by
  induction buckets with
  | nil => rfl
  | cons b rest ih =>
    cases b with
    | none => simpa [exceedsCell, List.countP_cons] using ih
    | some v =>
      by_cases hv : t ≤ v
      · simp [exceedsCell, List.countP_cons, hv, ih]
      · simp [exceedsCell, List.countP_cons, hv, ih]

lemma idxmaxFirst_nil {α : Type} : idxmaxFirst ([] : List (α × Option ℚ)) = none := rfl

lemma idxmaxFirst_cons_none {α : Type} (t : α) (rest : List (α × Option ℚ)) :
    idxmaxFirst ((t, none) :: rest) = idxmaxFirst rest := rfl

lemma idxmaxFirst_cons_some_none {α : Type} (t : α) (v : ℚ)
    (rest : List (α × Option ℚ)) (h : idxmaxFirst rest = none) :
    idxmaxFirst ((t, some v) :: rest) = some (t, v) := by
  rw [idxmaxFirst, h]

lemma idxmaxFirst_cons_some_lt {α : Type} (t : α) (v : ℚ) (t1 : α) (v1 : ℚ)
    (rest : List (α × Option ℚ)) (h : idxmaxFirst rest = some (t1, v1))
    (hlt : v < v1) :
    idxmaxFirst ((t, some v) :: rest) = some (t1, v1) := by
  rw [idxmaxFirst, h]
  simp [hlt]

lemma idxmaxFirst_cons_some_ge {α : Type} (t : α) (v : ℚ) (t1 : α) (v1 : ℚ)
    (rest : List (α × Option ℚ)) (h : idxmaxFirst rest = some (t1, v1))
    (hge : ¬ v < v1) :
    idxmaxFirst ((t, some v) :: rest) = some (t, v) := by
  rw [idxmaxFirst, h]
  simp [hge]

lemma idxmaxFirst_eq_none_iff {α : Type} (l : List (α × Option ℚ)) :
    idxmaxFirst l = none ↔ ∀ b ∈ l, b.2 = none := by
  induction l with
  | nil => simp [idxmaxFirst_nil]
  | cons b rest ih =>
    obtain ⟨t, o⟩ := b
    cases o with
    | none => simp [idxmaxFirst_cons_none, ih]
    | some v =>
      constructor
      · intro h
        exfalso
        rcases hr : idxmaxFirst rest with - | ⟨t1, v1⟩
        · rw [idxmaxFirst_cons_some_none t v rest hr] at h
          exact Option.some_ne_none _ h
        · by_cases hlt : v < v1
          · rw [idxmaxFirst_cons_some_lt t v t1 v1 rest hr hlt] at h
            exact Option.some_ne_none _ h
          · rw [idxmaxFirst_cons_some_ge t v t1 v1 rest hr hlt] at h
            exact Option.some_ne_none _ h
      · intro h
        have := h (t, some v) (List.mem_cons_self _ _)
        simp at this

lemma idxmaxFirst_mem {α : Type} :
    ∀ (l : List (α × Option ℚ)) (t : α) (v : ℚ),
      idxmaxFirst l = some (t, v) → (t, some v) ∈ l := by
  intro l
  induction l with
  | nil => intro t v h; simp [idxmaxFirst_nil] at h
  | cons b rest ih =>
    obtain ⟨t0, o0⟩ := b
    intro t v h
    cases o0 with
    | none =>
      rw [idxmaxFirst_cons_none] at h
      exact List.mem_cons_of_mem _ (ih t v h)
    | some v0 =>
      rcases hr : idxmaxFirst rest with - | ⟨t1, v1⟩
      · rw [idxmaxFirst_cons_some_none t0 v0 rest hr] at h
        obtain ⟨rfl, rfl⟩ : t0 = t ∧ v0 = v := by
          simpa [Prod.ext_iff] using h
        exact List.mem_cons_self _ _
      · by_cases hlt : v0 < v1
        · rw [idxmaxFirst_cons_some_lt t0 v0 t1 v1 rest hr hlt] at h
          obtain ⟨rfl, rfl⟩ : t1 = t ∧ v1 = v := by
            simpa [Prod.ext_iff] using h
          exact List.mem_cons_of_mem _ (ih t1 v1 hr)
        · rw [idxmaxFirst_cons_some_ge t0 v0 t1 v1 rest hr hlt] at h
          obtain ⟨rfl, rfl⟩ : t0 = t ∧ v0 = v := by
            simpa [Prod.ext_iff] using h
          exact List.mem_cons_self _ _

lemma idxmaxFirst_max {α : Type} :
    ∀ (l : List (α × Option ℚ)) (t : α) (v : ℚ),
      idxmaxFirst l = some (t, v) →
      ∀ (t2 : α) (v2 : ℚ), (t2, some v2) ∈ l → v2 ≤ v := by
  intro l
  induction l with
  | nil => intro t v h; simp [idxmaxFirst_nil] at h
  | cons b rest ih =>
    obtain ⟨t0, o0⟩ := b
    intro t v h t2 v2 hmem
    cases o0 with
    | none =>
      rw [idxmaxFirst_cons_none] at h
      rcases List.mem_cons.mp hmem with heq | hmem2
      · simp [Prod.ext_iff] at heq
      · exact ih t v h t2 v2 hmem2
    | some v0 =>
      rcases hr : idxmaxFirst rest with - | ⟨t1, v1⟩
      · rw [idxmaxFirst_cons_some_none t0 v0 rest hr] at h
        obtain ⟨rfl, rfl⟩ : t0 = t ∧ v0 = v := by
          simpa [Prod.ext_iff] using h
        rcases List.mem_cons.mp hmem with heq | hmem2
        · obtain ⟨-, hv⟩ : t2 = t0 ∧ some v2 = some v0 := by
            simpa [Prod.ext_iff] using heq
          exact le_of_eq (Option.some.inj hv)
        · exact absurd ((idxmaxFirst_eq_none_iff rest).mp hr (t2, some v2) hmem2)
            (by simp)
      · by_cases hlt : v0 < v1
        · rw [idxmaxFirst_cons_some_lt t0 v0 t1 v1 rest hr hlt] at h
          obtain ⟨rfl, rfl⟩ : t1 = t ∧ v1 = v := by
            simpa [Prod.ext_iff] using h
          rcases List.mem_cons.mp hmem with heq | hmem2
          · obtain ⟨-, hv⟩ : t2 = t0 ∧ some v2 = some v0 := by
              simpa [Prod.ext_iff] using heq
            have hv2 : v2 = v0 := Option.some.inj hv
            subst hv2
            exact le_of_lt hlt
          · exact ih t1 v1 hr t2 v2 hmem2
        · rw [idxmaxFirst_cons_some_ge t0 v0 t1 v1 rest hr hlt] at h
          obtain ⟨rfl, rfl⟩ : t0 = t ∧ v0 = v := by
            simpa [Prod.ext_iff] using h
          rcases List.mem_cons.mp hmem with heq | hmem2
          · obtain ⟨-, hv⟩ : t2 = t0 ∧ some v2 = some v0 := by
              simpa [Prod.ext_iff] using heq
            exact le_of_eq (Option.some.inj hv)
          · have hmax := ih t1 v1 hr t2 v2 hmem2
            have hle : v1 ≤ v0 := not_lt.mp hlt
            linarith

lemma idxmaxFirst_isSome {α : Type} :
    ∀ (l : List (α × Option ℚ)), (∃ b ∈ l, b.2.isSome) →
      (idxmaxFirst l).isSome := by
  intro l h
  cases hr : idxmaxFirst l with
  | none =>
    obtain ⟨b, hb, hbs⟩ := h
    have := (idxmaxFirst_eq_none_iff l).mp hr b hb
    rw [this] at hbs
    simp at hbs
  | some q => simp

lemma idxmaxFirst_earliest :
    ∀ (l : List (Int × Option ℚ)) (t : Int) (v : ℚ),
      l.Pairwise (fun a b => a.1 < b.1) →
      idxmaxFirst l = some (t, v) →
      ∀ t2 : Int, (t2, some v) ∈ l → t ≤ t2 := by
  intro l
  induction l with
  | nil => intro t v _ h; simp [idxmaxFirst_nil] at h
  | cons b rest ih =>
    obtain ⟨t0, o0⟩ := b
    intro t v hpw h t2 hmem
    have hhead := (List.pairwise_cons.mp hpw).1
    have hpw2 := (List.pairwise_cons.mp hpw).2
    cases o0 with
    | none =>
      rw [idxmaxFirst_cons_none] at h
      rcases List.mem_cons.mp hmem with heq | hmem2
      · simp [Prod.ext_iff] at heq
      · exact ih t v hpw2 h t2 hmem2
    | some v0 =>
      rcases hr : idxmaxFirst rest with - | ⟨t1, v1⟩
      · rw [idxmaxFirst_cons_some_none t0 v0 rest hr] at h
        obtain ⟨rfl, rfl⟩ : t0 = t ∧ v0 = v := by
          simpa [Prod.ext_iff] using h
        rcases List.mem_cons.mp hmem with heq | hmem2
        · obtain ⟨rfl, -⟩ : t2 = t0 ∧ some v0 = some v0 := by
            simpa [Prod.ext_iff] using heq
          exact le_refl _
        · exact absurd ((idxmaxFirst_eq_none_iff rest).mp hr (t2, some v0) hmem2)
            (by simp)
      · by_cases hlt : v0 < v1
        · rw [idxmaxFirst_cons_some_lt t0 v0 t1 v1 rest hr hlt] at h
          obtain ⟨rfl, rfl⟩ : t1 = t ∧ v1 = v := by
            simpa [Prod.ext_iff] using h
          rcases List.mem_cons.mp hmem with heq | hmem2
          · obtain ⟨-, hv⟩ : t2 = t0 ∧ some v1 = some v0 := by
              simpa [Prod.ext_iff] using heq
            have hv0 : v1 = v0 := Option.some.inj hv
            rw [hv0] at hlt
            exact absurd hlt (lt_irrefl v0)
          · exact ih t1 v1 hpw2 hr t2 hmem2
        · rw [idxmaxFirst_cons_some_ge t0 v0 t1 v1 rest hr hlt] at h
          obtain ⟨rfl, rfl⟩ : t0 = t ∧ v0 = v := by
            simpa [Prod.ext_iff] using h
          rcases List.mem_cons.mp hmem with heq | hmem2
          · obtain ⟨rfl, -⟩ : t2 = t0 ∧ some v0 = some v0 := by
              simpa [Prod.ext_iff] using heq
            exact le_refl _
          · exact le_of_lt (hhead (t2, some v0) hmem2)

/-! ### Claim theorems -/

/-- C5: for every known pollutant and defined concentration, when the i-th
breakpoint of the pollutant's table contains the concentration and no
earlier breakpoint does, index_for returns the linear interpolation
(index_high - index_low) / (conc_high - conc_low) * (concentration -
conc_low) + index_low over that breakpoint; in particular
index_for("pm25", 12.0) = 50 and index_for("pm25", 35.4) = 100. -/
theorem C5_first_breakpoint_interpolation :
    (∀ (p : String) (tbl : List Breakpoint) (v : ℚ) (i : ℕ) (hi : i < tbl.length),
      AQI_TABLE p = some tbl →
      inBp v (tbl.get ⟨i, hi⟩) = true →
      (∀ (j : ℕ) (hj : j < tbl.length), j < i → inBp v (tbl.get ⟨j, hj⟩) = false) →
      compute_aqi_for_value p (some v) = some (interp (tbl.get ⟨i, hi⟩) v)) ∧
    compute_aqi_for_value "pm25" (some 12) = some 50 ∧
    compute_aqi_for_value "pm25" (some 35.4) = some 100 := by
  refine ⟨?_, ?_, ?_⟩
  · intro p tbl v i hi htbl hin hfirst
    have hfind := find?_of_first (inBp v) tbl i hi hin hfirst
    simp [compute_aqi_for_value, htbl, hfind]
  · norm_num [compute_aqi_for_value, AQI_TABLE, pm25Table, inBp, interp,
      List.find?]
  · norm_num [compute_aqi_for_value, AQI_TABLE, pm25Table, inBp, interp,
      List.find?]

/-- C5 witness: concentration 20 lies in the second pm25 breakpoint
(12.1-35.4) and in no earlier one; the theorem applied there gives the
interpolated index. -/
theorem C5_first_breakpoint_interpolation_witness :
    compute_aqi_for_value "pm25" (some 20) =
      some (interp (pm25Table.get ⟨1, by norm_num [pm25Table]⟩) 20) :=
  C5_first_breakpoint_interpolation.1 "pm25" pm25Table 20 1
    (by norm_num [pm25Table]) rfl
    (by norm_num [pm25Table, inBp])
    (by
      intro j hj hji
      have hj0 : j = 0 := by omega
      subst hj0
      norm_num [pm25Table, inBp])

lemma compute_pm25_eq (v : ℚ) :
    compute_aqi_for_value "pm25" (some v) =
      match pm25Table.find? (inBp v) with
      | some bp => some (interp bp v)
      | none => if (500.4 : ℚ) < v then some 500 else none := rfl

lemma compute_o3_eq (v : ℚ) :
    compute_aqi_for_value "o3" (some v) =
      match o3Table.find? (inBp v) with
      | some bp => some (interp bp v)
      | none => if (200 : ℚ) < v then some 500 else none := rfl

/-- C6: for every known pollutant, index_for returns the fixed ceiling 500
for every concentration above the last breakpoint's conc_high and
undefined (with no floor saturation) for every concentration below the
first breakpoint's conc_low, negative values included; in particular
index_for("pm25", 600.0) = 500 and index_for("pm25", -5.0) is undefined. -/
theorem C6_ceiling_above_undefined_below :
    (∀ (p : String) (tbl : List Breakpoint) (firstBp lastBp : Breakpoint) (v : ℚ),
      AQI_TABLE p = some tbl →
      tbl.head? = some firstBp →
      tbl.getLast? = some lastBp →
      (lastBp.hi < v → compute_aqi_for_value p (some v) = some 500) ∧
      (v < firstBp.lo → compute_aqi_for_value p (some v) = none)) ∧
    compute_aqi_for_value "pm25" (some 600) = some 500 ∧
    compute_aqi_for_value "pm25" (some (-5)) = none := by
  refine ⟨?_, ?_, ?_⟩
  · intro p tbl firstBp lastBp v htbl hhead hlast
    rcases AQI_TABLE_cases htbl with ⟨hp, htb⟩ | ⟨hp, htb⟩ <;> subst hp htb
    · have hh : firstBp = (⟨0, 12, 0, 50⟩ : Breakpoint) := by
        have he : pm25Table.head? = some (⟨0, 12, 0, 50⟩ : Breakpoint) := rfl
        rw [he] at hhead
        exact (Option.some.inj hhead).symm
      have hl : lastBp = (⟨350.5, 500.4, 401, 500⟩ : Breakpoint) := by
        have he : pm25Table.getLast? = some (⟨350.5, 500.4, 401, 500⟩ : Breakpoint) := rfl
        rw [he] at hlast
        exact (Option.some.inj hlast).symm
      subst hh hl
      constructor
      · intro hv
        have hv' : (500.4 : ℚ) < v := hv
        rw [compute_pm25_eq, pm25_find_none_of_gt hv']
        simp [hv']
      · intro hv
        have hv' : v < 0 := hv
        have hnot : ¬ (500.4 : ℚ) < v := by
          intro hc
          norm_num at hc
          linarith
        rw [compute_pm25_eq, pm25_find_none_of_lt hv']
        simp [hnot]
    · have hh : firstBp = (⟨0, 54, 0, 50⟩ : Breakpoint) := by
        have he : o3Table.head? = some (⟨0, 54, 0, 50⟩ : Breakpoint) := rfl
        rw [he] at hhead
        exact (Option.some.inj hhead).symm
      have hl : lastBp = (⟨106, 200, 201, 300⟩ : Breakpoint) := by
        have he : o3Table.getLast? = some (⟨106, 200, 201, 300⟩ : Breakpoint) := rfl
        rw [he] at hlast
        exact (Option.some.inj hlast).symm
      subst hh hl
      constructor
      · intro hv
        have hv' : (200 : ℚ) < v := hv
        rw [compute_o3_eq, o3_find_none_of_gt hv']
        simp [hv']
      · intro hv
        have hv' : v < 0 := hv
        have hnot : ¬ (200 : ℚ) < v := by linarith
        rw [compute_o3_eq, o3_find_none_of_lt hv']
        simp [hnot]
  · norm_num [compute_aqi_for_value, AQI_TABLE, pm25Table, inBp, interp,
      List.find?, List.getLast?]
  · norm_num [compute_aqi_for_value, AQI_TABLE, pm25Table, inBp, interp,
      List.find?, List.getLast?]

/-- C6 witness: the theorem applied to o3 at concentration 250 (above the
last o3 breakpoint) and at -1 (below the first). -/
theorem C6_ceiling_above_undefined_below_witness :
    compute_aqi_for_value "o3" (some 250) = some 500 ∧
    compute_aqi_for_value "o3" (some (-1)) = none :=
  ⟨(C6_ceiling_above_undefined_below.1 "o3" o3Table ⟨0, 54, 0, 50⟩
      ⟨106, 200, 201, 300⟩ 250 rfl rfl rfl).1 (by norm_num),
   (C6_ceiling_above_undefined_below.1 "o3" o3Table ⟨0, 54, 0, 50⟩
      ⟨106, 200, 201, 300⟩ (-1) rfl rfl rfl).2 (by norm_num)⟩

/-- C7: a bucket with zero contributing readings for a pollutant carries
an undefined value for that pollutant (never zero), and IndexCalculator
maps that undefined value to an undefined per-pollutant index. -/
theorem C7_empty_bucket_undefined_propagates :
    ∀ (readings : List Reading) (p : String) (w b : Int),
      (∀ x ∈ rowsFor readings p, bucketStart w x.1 ≠ b) →
      bucketValue (rowsFor readings p) w b = none ∧
      compute_aqi_for_value p (bucketValue (rowsFor readings p) w b) = none := by
  intro readings p w b h
  have htimes : bucketTimes (rowsFor readings p) w b = [] := by
    rw [bucketTimes, List.filter_eq_nil_iff]
    intro t ht
    have ht2 : t ∈ (rowsFor readings p).map Prod.fst := List.mem_dedup.mp ht
    obtain ⟨x, hx, rfl⟩ := List.mem_map.mp ht2
    simp [h x hx]
  have hval : bucketValue (rowsFor readings p) w b = none := by
    simp [bucketValue, htimes, meanQ]
  exact ⟨hval, by rw [hval]; rfl⟩

/-- C7 witness: one pm25 reading in the bucket starting at 432000 (width
86400) contributes nothing to the bucket starting at 0, whose value and
index are therefore undefined. -/
theorem C7_empty_bucket_undefined_propagates_witness :
    bucketValue (rowsFor [⟨some 432000, "A", "S", "pm25", some 10⟩] "pm25") 86400 0 = none ∧
    compute_aqi_for_value "pm25"
      (bucketValue (rowsFor [⟨some 432000, "A", "S", "pm25", some 10⟩] "pm25") 86400 0) = none :=
  C7_empty_bucket_undefined_propagates [⟨some 432000, "A", "S", "pm25", some 10⟩]
    "pm25" 86400 0 (by decide)

/-- C9: when the filtered reading set is empty, update_all returns the
explicit no-data signal (none), which is distinct by construction from
any computed SummaryOutput, and raises no exception. -/
theorem C9_empty_filter_no_data_signal :
    ∀ (readings : List Reading) (city station : Option String)
      (sd ed : Option Int) (pollutants : List String) (w : Int) (thresh : Option ℚ),
      filterReadings readings city station sd ed pollutants = [] →
      update_all readings city station sd ed pollutants w thresh = none := by
  intro readings city station sd ed pollutants w thresh h
  simp [update_all, h]

/-- C9 witness: a single reading for city A filtered with city B leaves
the reading set empty, and update_all returns the no-data signal. -/
theorem C9_empty_filter_no_data_signal_witness :
    update_all [⟨some 0, "A", "S1", "pm25", some 5⟩] (some "B") none none none
      ["pm25"] 86400 (some 100) = none :=
  C9_empty_filter_no_data_signal [⟨some 0, "A", "S1", "pm25", some 5⟩]
    (some "B") none none none ["pm25"] 86400 (some 100) (by decide)

/-- C10: for a pollutant code absent from AQI_TABLE, index_for is
undefined for every defined concentration, however large — the 500
ceiling is never applied to an unknown pollutant. -/
theorem C10_unknown_pollutant_undefined :
    ∀ (p : String) (v : ℚ), AQI_TABLE p = none →
      compute_aqi_for_value p (some v) = none := by
  intro p v h
  simp [compute_aqi_for_value, h, List.find?]

/-- C10 witness: the unknown pollutant code co at a very large
concentration still yields an undefined index. -/
theorem C10_unknown_pollutant_undefined_witness :
    AQI_TABLE "co" = none ∧
    compute_aqi_for_value "co" (some 1000000) = none :=
  ⟨rfl, C10_unknown_pollutant_undefined "co" 1000000 rfl⟩

/-- C1 counterexample: for the buckets with overall_index 50, 100, 150 and
one undefined bucket at threshold 100, the code's exceedance KPI is 50%
(the NaN bucket stays in the denominator: 2 of 4), not the claimed
2/3 ≈ 66.7%. -/
theorem C1_exceedance_rate_counterexample :
    exceed_rate [some 50, some 100, some 150, none] (some 100) = some 50 ∧
    (50 : ℚ) ≠ (2 / 3) * 100 := by
  constructor
  · norm_num [exceed_rate, effThreshold, exceedsCell, List.countP_cons,
      List.countP_nil, List.any]
  · norm_num

/-- C1 (amended): the exceedance rate equals the number of buckets with
defined overall_index ≥ threshold divided by the TOTAL number of buckets
(buckets with undefined overall_index are excluded from the numerator but
kept in the denominator), as a percentage; it is undefined when no bucket
has a defined overall_index; the 50/100/150/undefined example at
threshold 100 yields 50%, not 2/3. -/
theorem C1_exceedance_rate_amended :
    (∀ (buckets : List (Option ℚ)) (thresh : Option ℚ),
      (∃ b ∈ buckets, b.isSome) →
      exceed_rate buckets thresh =
        some (((((buckets.filterMap id).filter
            fun v => decide (effThreshold thresh ≤ v)).length : ℚ)
          / (buckets.length : ℚ)) * 100)) ∧
    (∀ (buckets : List (Option ℚ)) (thresh : Option ℚ),
      (∀ b ∈ buckets, b = none) → exceed_rate buckets thresh = none) ∧
    exceed_rate [some 50, some 100, some 150, none] (some 100) = some 50 := by
  refine ⟨?_, ?_, ?_⟩
  · intro buckets thresh h
    have hany : buckets.any Option.isSome = true := by
      obtain ⟨b, hb, hbs⟩ := h
      exact List.any_eq_true.mpr ⟨b, hb, hbs⟩
    rw [exceed_rate, if_pos hany, countP_exceeds_eq]
  · intro buckets thresh h
    have hany : buckets.any Option.isSome = false := by
      rw [List.any_eq_false]
      intro b hb
      rw [h b hb]
      simp
    rw [exceed_rate, hany]
    rfl
  · norm_num [exceed_rate, effThreshold, exceedsCell, List.countP_cons,
      List.countP_nil, List.any]

/-- C1 witness: the amended theorem applied to the buckets 150, undefined
at threshold 100: one exceeding bucket out of two total gives 50%. -/
theorem C1_exceedance_rate_amended_witness :
    (∃ b ∈ ([some 150, none] : List (Option ℚ)), b.isSome) ∧
    exceed_rate [some 150, none] (some 100) =
      some ((((([some 150, none] : List (Option ℚ)).filterMap id).filter
          fun v => decide (effThreshold (some 100) ≤ v)).length : ℚ)
        / (([some 150, none] : List (Option ℚ)).length : ℚ) * 100) :=
  ⟨⟨some 150, by simp⟩,
   C1_exceedance_rate_amended.1 [some 150, none] (some 100) ⟨some 150, by simp⟩⟩

/-- C8: worst_bucket (idxmax over aqi_max with the notna().any() guard) is
undefined exactly when no bucket has a defined overall_index; otherwise it
returns a bucket of the sequence whose defined overall_index is maximal
among all defined overall indices, and, when the bucket sequence is
chronologically sorted, the earliest bucket among those attaining the
maximum. -/
theorem C8_worst_bucket_argmax_earliest :
    ∀ (buckets : List (Int × Option ℚ)),
      ((∀ b ∈ buckets, b.2 = none) → idxmaxFirst buckets = none) ∧
      ((∃ b ∈ buckets, b.2.isSome) → (idxmaxFirst buckets).isSome) ∧
      (∀ (t : Int) (v : ℚ), idxmaxFirst buckets = some (t, v) →
        (t, some v) ∈ buckets ∧
        (∀ (t2 : Int) (v2 : ℚ), (t2, some v2) ∈ buckets → v2 ≤ v) ∧
        (buckets.Pairwise (fun a b => a.1 < b.1) →
          ∀ t2 : Int, (t2, some v) ∈ buckets → t ≤ t2)) := by
  intro buckets
  refine ⟨?_, idxmaxFirst_isSome buckets, ?_⟩
  · intro h
    exact (idxmaxFirst_eq_none_iff buckets).mpr h
  · intro t v h
    exact ⟨idxmaxFirst_mem buckets t v h,
      idxmaxFirst_max buckets t v h,
      fun hpw t2 hmem => idxmaxFirst_earliest buckets t v hpw h t2 hmem⟩

/-- C8 witness: on the sorted buckets (0, 10), (86400, 70), (172800, 70),
(259200, undefined) the worst bucket is the one at 86400 with index 70 —
a member, maximal, and the earliest of the two tied buckets. -/
theorem C8_worst_bucket_argmax_earliest_witness :
    idxmaxFirst ([(0, some 10), (86400, some 70), (172800, some 70),
      (259200, none)] : List (Int × Option ℚ)) = some (86400, 70) ∧
    ((86400 : Int), some (70 : ℚ)) ∈
      ([(0, some 10), (86400, some 70), (172800, some 70),
        (259200, none)] : List (Int × Option ℚ)) ∧
    (86400 : Int) ≤ 172800 := by
  have hcomp : idxmaxFirst ([(0, some 10), (86400, some 70), (172800, some 70),
      (259200, none)] : List (Int × Option ℚ)) = some (86400, 70) := by
    norm_num [idxmaxFirst]
  have h := (C8_worst_bucket_argmax_earliest [(0, some 10), (86400, some 70),
    (172800, some 70), (259200, none)]).2.2 86400 70 hcomp
  exact ⟨hcomp, h.1,
    h.2.2 (by norm_num [List.pairwise_cons]) 172800 (by norm_num)⟩

lemma aqi_category_some_eq (v : ℚ) :
    aqi_category (some v) =
      if 0 ≤ v ∧ v ≤ 50 then "Good"
      else if 51 ≤ v ∧ v ≤ 100 then "Moderate"
      else if 101 ≤ v ∧ v ≤ 150 then "Unhealthy for Sensitive Groups"
      else if 151 ≤ v ∧ v ≤ 200 then "Unhealthy"
      else if 201 ≤ v ∧ v ≤ 300 then "Very Unhealthy"
      else if 301 ≤ v ∧ v ≤ 500 then "Hazardous"
      else "—" := by
  rw [aqi_category, AQI_CATEGORY]
  rw [List.find?_cons, List.find?_cons, List.find?_cons, List.find?_cons,
    List.find?_cons, List.find?_cons]
  split_ifs with h1 h2 h3 h4 h5 h6
  · simp [h1]
  · simp [h1, h2]
  · simp [h1, h2, h3]
  · simp [h1, h2, h3, h4]
  · simp [h1, h2, h3, h4, h5]
  · simp [h1, h2, h3, h4, h5, h6]
  · simp [List.find?_nil, h1, h2, h3, h4, h5, h6]

lemma pdCut_pie_eq (x : ℚ) :
    pdCut pie_bins pie_labels x =
      if x < 0 then none
      else if x ≤ 50 then some "Good (0–50)"
      else if x ≤ 100 then some "Moderate (51–100)"
      else if x ≤ 150 then some "Unhealthy SG (101–150)"
      else if x ≤ 200 then some "Unhealthy (151–200)"
      else if x ≤ 300 then some "Very Unhealthy (201–300)"
      else if x ≤ 500 then some "Hazardous (301–500)"
      else none := by
  simp only [pdCut, pie_bins, pie_labels, pdCutGo]

/-- C2 counterexample: a bucket with overall_index 50.5 is classified by
pd.cut into the Moderate slice of the pie (count 1), although the
CategoryClassifier of section 4.2 assigns it the undefined marker, so per
the claim it should have been excluded from all counts. -/
theorem C2_gap_value_counted_counterexample :
    pdCut pie_bins pie_labels (101 / 2) = some "Moderate (51–100)" ∧
    aqi_category (some (101 / 2)) = "—" ∧
    categoryCounts [some (101 / 2)] =
      [("Good (0–50)", 0), ("Moderate (51–100)", 1), ("Unhealthy SG (101–150)", 0),
       ("Unhealthy (151–200)", 0), ("Very Unhealthy (201–300)", 0),
       ("Hazardous (301–500)", 0)] := by
  have hcut : pdCut pie_bins pie_labels (101 / 2) = some "Moderate (51–100)" := by
    rw [pdCut_pie_eq]
    norm_num
  refine ⟨hcut, ?_, ?_⟩
  · rw [aqi_category_some_eq]
    norm_num
  · norm_num [categoryCounts, pie_labels, List.countP_cons, List.countP_nil,
      pdCut, pdCutGo, pie_bins]
    decide

/-- C2 (amended): the pie distribution classifies each defined
overall_index with the half-open pd.cut bins (first bin [0,50] closed on
both ends, then (50,100], (100,150], (150,200], (200,300], (300,500]);
this agrees with the section-4.2 band table on every value lying inside
some band, but a value in an inter-band gap (such as 50.5) is assigned to
the following band instead of being excluded; values outside [0,500] and
undefined buckets are excluded from all counts without error, and every
label appears in the output in canonical order, defaulting to zero. -/
theorem C2_distribution_amended :
    (∀ v : ℚ,
      ((0 ≤ v ∧ v ≤ 50) → pdCut pie_bins pie_labels v = some "Good (0–50)") ∧
      ((51 ≤ v ∧ v ≤ 100) → pdCut pie_bins pie_labels v = some "Moderate (51–100)") ∧
      ((101 ≤ v ∧ v ≤ 150) → pdCut pie_bins pie_labels v = some "Unhealthy SG (101–150)") ∧
      ((151 ≤ v ∧ v ≤ 200) → pdCut pie_bins pie_labels v = some "Unhealthy (151–200)") ∧
      ((201 ≤ v ∧ v ≤ 300) → pdCut pie_bins pie_labels v = some "Very Unhealthy (201–300)") ∧
      ((301 ≤ v ∧ v ≤ 500) → pdCut pie_bins pie_labels v = some "Hazardous (301–500)") ∧
      ((v < 0 ∨ 500 < v) → pdCut pie_bins pie_labels v = none)) ∧
    (∀ buckets : List (Option ℚ),
      categoryCounts (none :: buckets) = categoryCounts buckets) ∧
    (∀ buckets : List (Option ℚ),
      (categoryCounts buckets).map Prod.fst = pie_labels) ∧
    (categoryCounts [] = pie_labels.map fun lab => (lab, 0)) ∧
    pdCut pie_bins pie_labels (101 / 2) = some "Moderate (51–100)" := by
  refine ⟨?_, ?_, ?_, ?_, ?_⟩
  · intro v
    refine ⟨?_, ?_, ?_, ?_, ?_, ?_, ?_⟩ <;>
      · intro hv
        rw [pdCut_pie_eq]
        split_ifs <;> first | rfl | (exfalso; rcases hv with hv | hv <;> linarith) |
          (exfalso; obtain ⟨ha, hb⟩ := hv; linarith)
  · intro buckets
    simp [categoryCounts, List.countP_cons]
  · intro buckets
    simp [categoryCounts, List.map_map, Function.comp_def]
  · rfl
  · rw [pdCut_pie_eq]
    norm_num

/-- C2 witness: the amended theorem applied at index 75, which lies in the
Moderate band of section 4.2 and is classified into the Moderate slice. -/
theorem C2_distribution_amended_witness :
    (51 : ℚ) ≤ 75 ∧ (75 : ℚ) ≤ 100 ∧
    pdCut pie_bins pie_labels 75 = some "Moderate (51–100)" :=
  ⟨by norm_num, by norm_num,
   (C2_distribution_amended.1 75).2.1 ⟨by norm_num, by norm_num⟩⟩

/-- C3 counterexample: 50.5 lies in [0, 500] yet category_for returns the
undefined marker — the static band table has a gap between 50 and 51. -/
theorem C3_gap_in_range_counterexample :
    (0 : ℚ) ≤ 101 / 2 ∧ (101 / 2 : ℚ) ≤ 500 ∧
    aqi_category (some (101 / 2)) = "—" := by
  refine ⟨by norm_num, by norm_num, ?_⟩
  rw [aqi_category_some_eq]
  norm_num

/-- C3 (amended): category_for returns a band label exactly on the union
of the table's bands — in particular on every integer in [0, 500] — and
returns the undefined marker exactly when the index is undefined, outside
[0, 500], or a non-integer value in one of the inter-band gaps (50,51),
(100,101), (150,151), (200,201), (300,301); the bands do not cover all
rational values of [0, 500]. -/
theorem C3_category_band_coverage_amended :
    (∀ v : ℚ, aqi_category (some v) ≠ "—" ↔
      ((0 ≤ v ∧ v ≤ 50) ∨ (51 ≤ v ∧ v ≤ 100) ∨ (101 ≤ v ∧ v ≤ 150) ∨
       (151 ≤ v ∧ v ≤ 200) ∨ (201 ≤ v ∧ v ≤ 300) ∨ (301 ≤ v ∧ v ≤ 500))) ∧
    (∀ n : ℕ, n ≤ 500 → aqi_category (some (n : ℚ)) ≠ "—") ∧
    (∀ v : ℚ, (v < 0 ∨ 500 < v) → aqi_category (some v) = "—") ∧
    aqi_category none = "—" := by
  have hchar : ∀ v : ℚ, aqi_category (some v) ≠ "—" ↔
      ((0 ≤ v ∧ v ≤ 50) ∨ (51 ≤ v ∧ v ≤ 100) ∨ (101 ≤ v ∧ v ≤ 150) ∨
       (151 ≤ v ∧ v ≤ 200) ∨ (201 ≤ v ∧ v ≤ 300) ∨ (301 ≤ v ∧ v ≤ 500)) := by
    intro v
    rw [aqi_category_some_eq]
    split_ifs with h1 h2 h3 h4 h5 h6 <;> simp_all
  refine ⟨hchar, ?_, ?_, rfl⟩
  · intro n hn
    rw [hchar]
    have h0 : (0 : ℚ) ≤ (n : ℚ) := by positivity
    by_cases c1 : n ≤ 50
    · exact Or.inl ⟨h0, by exact_mod_cast c1⟩
    by_cases c2 : n ≤ 100
    · exact Or.inr (Or.inl ⟨by exact_mod_cast (by omega : 51 ≤ n), by exact_mod_cast c2⟩)
    by_cases c3 : n ≤ 150
    · exact Or.inr (Or.inr (Or.inl
        ⟨by exact_mod_cast (by omega : 101 ≤ n), by exact_mod_cast c3⟩))
    by_cases c4 : n ≤ 200
    · exact Or.inr (Or.inr (Or.inr (Or.inl
        ⟨by exact_mod_cast (by omega : 151 ≤ n), by exact_mod_cast c4⟩)))
    by_cases c5 : n ≤ 300
    · exact Or.inr (Or.inr (Or.inr (Or.inr (Or.inl
        ⟨by exact_mod_cast (by omega : 201 ≤ n), by exact_mod_cast c5⟩))))
    · exact Or.inr (Or.inr (Or.inr (Or.inr (Or.inr
        ⟨by exact_mod_cast (by omega : 301 ≤ n), by exact_mod_cast hn⟩))))
  · intro v hv
    rw [aqi_category_some_eq]
    split_ifs with h1 h2 h3 h4 h5 h6 <;>
      first | rfl | (exfalso; rcases hv with hv | hv <;>
        rcases ‹_ ∧ _› with ⟨ha, hb⟩ <;> linarith)

/-- C3 witness: the amended theorem applied at the integer 500, which the
bands do cover. -/
theorem C3_category_band_coverage_amended_witness :
    (500 : ℕ) ≤ 500 ∧ aqi_category (some ((500 : ℕ) : ℚ)) ≠ "—" :=
  ⟨le_refl 500, C3_category_band_coverage_amended.2.1 500 (le_refl 500)⟩

/-- C4 counterexample: the first two pm25 breakpoints do not share
boundary values — conc_high(0) = 12 ≠ 12.1 = conc_low(1) and
index_high(0) = 50 ≠ 51 = index_low(1); adjacent ranges leave a gap. -/
theorem C4_no_shared_boundary_counterexample :
    (pm25Table.getD 0 ⟨0, 0, 0, 0⟩).hi = 12 ∧
    (pm25Table.getD 1 ⟨0, 0, 0, 0⟩).lo = 12.1 ∧
    (12 : ℚ) ≠ 12.1 ∧
    (pm25Table.getD 0 ⟨0, 0, 0, 0⟩).ihi = 50 ∧
    (pm25Table.getD 1 ⟨0, 0, 0, 0⟩).ilo = 51 ∧
    (50 : ℚ) ≠ 51 := by
  refine ⟨rfl, rfl, by norm_num, rfl, rfl, by norm_num⟩

/-- C4 (amended): in every pollutant's breakpoint table the ranges are
disjoint and strictly increasing in both the concentration and the index
dimension — conc_low(i+1) > conc_high(i) and index_low(i+1) >
index_high(i), with conc_low < conc_high and index_low < index_high inside
each breakpoint; adjacent breakpoints do NOT share boundary values. -/
theorem C4_breakpoints_strictly_increasing_amended :
    ∀ (p : String) (tbl : List Breakpoint), AQI_TABLE p = some tbl →
      tbl.Chain' (fun a b => a.hi < b.lo ∧ a.ihi < b.ilo) ∧
      ∀ bp ∈ tbl, bp.lo < bp.hi ∧ bp.ilo < bp.ihi := by
  intro p tbl h
  rcases AQI_TABLE_cases h with ⟨-, rfl⟩ | ⟨-, rfl⟩
  · constructor
    · norm_num [pm25Table, List.chain'_cons]
    · intro bp hbp
      fin_cases hbp <;> norm_num
  · constructor
    · norm_num [o3Table, List.chain'_cons]
    · intro bp hbp
      fin_cases hbp <;> norm_num

/-- C4 witness: the amended theorem applied to the pm25 table. -/
theorem C4_breakpoints_strictly_increasing_amended_witness :
    pm25Table.Chain' (fun a b => a.hi < b.lo ∧ a.ihi < b.ilo) :=
  (C4_breakpoints_strictly_increasing_amended "pm25" pm25Table rfl).1

end AirQuality
